import Mathlib

/-!
Verification development for the usbmuxd client library.

Shallow embedding of the protocol/connection core:
* `usbmux/types/payload.py` : the `_Properties` and `Payload` records
* `usbmux/connection/device.py` : the `Device` record
* `usbmux/connection/protocols/binary_protocol.py` : the binary codec (byte level)
* `usbmux/connection/protocols/plist_protocol.py` : the plist codec (the plist
  serialization itself is a black-box collaborator, see below)
* `usbmux/connection/connection.py` : the connection state machine
* `usbmux/connection/client.py` : the pairing-record helper

Bytes are `List Nat` with each element a byte value; machine integers are `Nat`
with explicit range checks where `struct.pack` and `struct.unpack` enforce them.
Python exceptions are an explicit error type, and Python code that mutates state
before raising is modelled as returning the mutated state together with the
error.
-/

namespace Usbmux

/-- The `Types.RequestType` union `Union[str, int]` of `usbmux/types/types.py`:
opcodes are small integers for the binary codec and strings for the plist
codec. -/
inductive RequestTypeT where
  | int (n : Nat)
  | str (s : String)
  deriving DecidableEq

/-- Exception messages of `usbmux/exceptions/messages.py`, with their format
parameters carried as constructor arguments (human-readable formatting itself
is out of scope per spec section 1). -/
inductive Msg where
  | socketConnectionBroken
  | socketListenerError
  | socketIsConnected
  | tagMismatch (expected current : Nat)
  | listenFailed (number : Nat)
  | connectionFailed (number : Option Nat)
  | unexpectedResult (response : RequestTypeT)
  | invalidPayload
  | invalidPacketType (response : RequestTypeT)
  | invalidOutgoingRequestType (request : RequestTypeT)
  | invalidIncomingResponseType (response : RequestTypeT)
  | muxConnectedError
  | invalidVersion (expected current : Nat)
  deriving DecidableEq

/-- Exceptions raised by the source. `muxError` and `muxVersionError` model
`MuxError` and its subtype `MuxVersionError` of `usbmux/exceptions/exceptions.py`;
the remaining constructors model Python builtin exceptions raised by the code
or by the `struct` and `plistlib` standard libraries it calls. -/
inductive PyErr where
  | muxError (msg : Msg)
  | muxVersionError (msg : Msg)
  | valueError (msg : Msg)
  | structError
  | typeError
  | keyError
  | notImplementedError
  deriving DecidableEq

/-- A `MuxVersionError` is a subtype of `MuxError` in the source; this predicate
captures membership in the generic mux-error class. -/
def PyErr.isMuxError : PyErr → Bool
  | .muxError _ => true
  | .muxVersionError _ => true
  | _ => false

/-- Whether a computation raised the distinguishable `MuxVersionError` (the
fallback trigger a caller distinguishes with `except MuxVersionError`). -/
def isVersionError {α : Type} : Except PyErr α → Bool
  | .error (.muxVersionError _) => true
  | _ => false

/-- The nested `_Properties` dataclass of `usbmux/types/payload.py`; every
field is optional and defaults to `None`. -/
structure _Properties where
  ConnectionType : Option String := none
  DeviceID : Option Nat := none
  LocationID : Option Nat := none
  ProductID : Option Nat := none
  SerialNumber : Option String := none
  UDID : Option String := none
  deriving DecidableEq

/-- The `Payload` dataclass of `usbmux/types/payload.py`.
`ClientVersionString` and `ProgName` have non-null string defaults; every
other field defaults to `None`. `PairRecordData` holds raw bytes. -/
structure Payload where
  ClientVersionString : String := "qt4i-usbmuxd"
  ProgName : String := "tcprelay"
  MessageType : Option String := none
  Number : Option Nat := none
  DeviceID : Option Nat := none
  PortNumber : Option Nat := none
  Properties : Option _Properties := none
  PairRecordID : Option String := none
  PairRecordData : Option (List Nat) := none
  deriving DecidableEq

/-- The `Types.Payload` union `Union[Payload, bytes]` of `usbmux/types/types.py`. -/
inductive TypesPayload where
  | payload (p : Payload)
  | bytes (b : List Nat)
  deriving DecidableEq

/-- The `Device` value record of `usbmux/connection/device.py`: constructor
arguments in source order `(device_id, usb_product_id, serial, location)`,
all optional. -/
structure Device where
  device_id : Option Nat := none
  usb_product_id : Option Nat := none
  serial : Option String := none
  location : Option Nat := none
  deriving DecidableEq

/-! ## struct pack/unpack helpers

The source uses native (x86-64, little-endian) `struct` formats `I`, `IH`,
`III`, `IIII` and `IH256sHI` from `usbmux/types/formats.py`. For these formats
native alignment inserts no padding, so the encodings are the plain
little-endian byte concatenations; `struct.pack` raises for out-of-range or
non-integer arguments and `struct.unpack` raises unless the buffer length
matches the format size exactly. -/

/-- Little-endian encoding of a `u32` (the four bytes `struct.pack("I", n)`
produces for `n < 2^32`). -/
def enU32 (n : Nat) : List Nat :=
  [n % 256, n / 256 % 256, n / 65536 % 256, n / 16777216 % 256]

/-- Little-endian encoding of a `u16`. -/
def enU16 (n : Nat) : List Nat :=
  [n % 256, n / 256 % 256]

/-- Value of four little-endian bytes as a `u32`. -/
def deU32 (b0 b1 b2 b3 : Nat) : Nat :=
  b0 + 256 * b1 + 65536 * b2 + 16777216 * b3

/-- Value of two little-endian bytes as a `u16`. -/
def deU16 (b0 b1 : Nat) : Nat :=
  b0 + 256 * b1

/-- Byte of a byte list at an index (indices are in range wherever this is
used, after the length checks `struct.unpack` performs). -/
def byteAt (b : List Nat) (i : Nat) : Nat := b.getD i 0

/-- The `u32` little-endian field of a byte list starting at offset `i`. -/
def u32At (b : List Nat) (i : Nat) : Nat :=
  deU32 (byteAt b i) (byteAt b (i + 1)) (byteAt b (i + 2)) (byteAt b (i + 3))

/-- The `u16` little-endian field of a byte list starting at offset `i`. -/
def u16At (b : List Nat) (i : Nat) : Nat :=
  deU16 (byteAt b i) (byteAt b (i + 1))

/-- `struct.pack(Formats.I, n)`. -/
def pack_I (n : Nat) : Except PyErr (List Nat) :=
  if n < 4294967296 then .ok (enU32 n) else .error .structError

/-- `struct.pack(Formats.IH, a, b)` as called in `BinaryProtocol._pack` on
`(payload.DeviceID, payload.PortNumber)`: both arguments are optional ints and
`struct.pack` raises when either is `None` or out of range. -/
def pack_IH (a b : Option Nat) : Except PyErr (List Nat) :=
  match a, b with
  | some x, some y =>
      if x < 4294967296 ∧ y < 65536 then .ok (enU32 x ++ enU16 y)
      else .error .structError
  | _, _ => .error .structError

/-- `struct.pack(Formats.IIII, a, b, c, d)` (the 16-byte packet header). -/
def pack_IIII (a b c d : Nat) : Except PyErr (List Nat) :=
  if a < 4294967296 ∧ b < 4294967296 ∧ c < 4294967296 ∧ d < 4294967296 then
    .ok (enU32 a ++ enU32 b ++ enU32 c ++ enU32 d)
  else .error .structError

/-- `struct.unpack(Formats.I, b)[0]` : requires exactly four bytes. -/
def unpack_I (b : List Nat) : Except PyErr Nat :=
  match b with
  | [b0, b1, b2, b3] => .ok (deU32 b0 b1 b2 b3)
  | _ => .error .structError

/-- `struct.unpack(Formats.III, b)` : requires exactly twelve bytes. -/
def unpack_III (b : List Nat) : Except PyErr (Nat × Nat × Nat) :=
  match b with
  | [b0, b1, b2, b3, c0, c1, c2, c3, d0, d1, d2, d3] =>
      .ok (deU32 b0 b1 b2 b3, deU32 c0 c1 c2 c3, deU32 d0 d1 d2 d3)
  | _ => .error .structError

/-- The port byte swap computed in `Connection.connect`:
`((port << 8) & 0xFF00) | (port >> 8)`. -/
def swap16 (port : Nat) : Nat :=
  ((port <<< 8) &&& 0xFF00) ||| (port >>> 8)

/-! ## Binary codec (`usbmux/connection/protocols/binary_protocol.py`) -/

namespace BinaryProtocol

def TYPE_RESULT : Nat := 1
def TYPE_CONNECT : Nat := 2
def TYPE_LISTEN : Nat := 3
def TYPE_DEVICE_ADD : Nat := 4
def TYPE_DEVICE_REMOVE : Nat := 5
def VERSION : Nat := 0
def PADDING_LENGTH : Nat := 16
def SOCKET_PADDING : Nat := 4

/-- `SafeStreamSocket.receive(size)` over a modelled incoming byte stream:
collects exactly `size` bytes, or fails with the connection-broken error when
the stream is exhausted first. Returns the bytes read and the rest of the
stream. -/
def receive (size : Nat) (stream : List Nat) : Except PyErr (List Nat × List Nat) :=
  if size ≤ stream.length then .ok (stream.take size, stream.drop size)
  else .error (.muxError .socketConnectionBroken)

/-- `BinaryProtocol._pack(request, payload)`: a raw-bytes payload passes
through; `LISTEN` has an empty body; `CONNECT` packs `(DeviceID, PortNumber)`
with format `IH` followed by two zero padding bytes; any other outgoing
request raises `ValueError`. -/
def _pack (request : Nat) (payload : TypesPayload) : Except PyErr (List Nat) :=
  match payload with
  | .bytes b => .ok b
  | .payload p =>
      if request = TYPE_LISTEN then .ok []
      else if request = TYPE_CONNECT then
        match pack_IH p.DeviceID p.PortNumber with
        | .ok wrapped_payload => .ok (wrapped_payload ++ [0, 0])
        | .error e => .error e
      else .error (.valueError (.invalidOutgoingRequestType (.int request)))

/-- Models `serial_number.split("\0")[0]` in `BinaryProtocol._unpack`:
`struct.unpack` yields `bytes` for the `256s` field in Python 3, and calling
`bytes.split` with a `str` separator raises `TypeError` unconditionally, so no
string value is ever produced. The result type mirrors the annotation
`serial_number: str` the source claims for this expression. -/
def bytesSplitStr (_serial : List Nat) (_sep : String) : Except PyErr String :=
  .error .typeError

/-- `BinaryProtocol._unpack(response, payload)`: dispatches on the response
opcode; `RESULT` and `DEVICE_REMOVE` bodies are a single `u32`; `DEVICE_ADD`
bodies use format `IH256sHI` (size 268) whose serial field goes through
`bytesSplitStr`; other opcodes raise the invalid-incoming-response error. -/
def _unpack (response : Nat) (payload : TypesPayload) : Except PyErr Payload :=
  match payload with
  | .payload _ => .error .notImplementedError
  | .bytes b =>
      if response = TYPE_RESULT then
        match unpack_I b with
        | .ok n => .ok { Number := some n }
        | .error e => .error e
      else if response = TYPE_DEVICE_REMOVE then
        match unpack_I b with
        | .ok n => .ok { DeviceID := some n }
        | .error e => .error e
      else if response = TYPE_DEVICE_ADD then
        if b.length = 268 then
          match bytesSplitStr ((b.drop 6).take 256) "\x00" with
          | .ok serial_number =>
              .ok { DeviceID := some (u32At b 0),
                    Properties := some { LocationID := some (u32At b 264),
                                         SerialNumber := some serial_number,
                                         ProductID := some (u16At b 4) } }
          | .error e => .error e
        else .error .structError
      else .error (.muxError (.invalidIncomingResponseType (.int response)))

/-- `BinaryProtocol.send_packet(request, tag, payload)`: the
`__is_connected` guard, then the packed body prefixed by the
`IIII` header `(16 + len(body), VERSION, request, tag)`. Returns the bytes
written to the socket. -/
def send_packet (connected : Bool) (request : Nat) (tag : Nat)
    (payload : TypesPayload) : Except PyErr (List Nat) :=
  if connected then .error (.muxError .muxConnectedError)
  else
    match _pack request payload with
    | .error e => .error e
    | .ok wrapped_payload =>
        match pack_IIII (PADDING_LENGTH + wrapped_payload.length) VERSION request tag with
        | .error e => .error e
        | .ok header => .ok (header ++ wrapped_payload)

/-- `BinaryProtocol.get_packet()` over a modelled incoming byte stream: the
`__is_connected` guard, a 4-byte length read, a read of `length - 4` more
bytes, the `III` header unpack, the version check against `VERSION` (raising
the distinguishable `MuxVersionError` on mismatch) and finally `_unpack` of
the body. (In Python `length - 4` may be negative for `length < 4`; receiving
a negative count collects nothing, exactly as truncated `Nat` subtraction
models.) -/
def get_packet (connected : Bool) (stream : List Nat) :
    Except PyErr (Nat × Nat × Payload) :=
  if connected then .error (.muxError .muxConnectedError)
  else
    match receive SOCKET_PADDING stream with
    | .error e => .error e
    | .ok (received_data, rest) =>
        match unpack_I received_data with
        | .error e => .error e
        | .ok length =>
            match receive (length - SOCKET_PADDING) rest with
            | .error e => .error e
            | .ok (body, _) =>
                match unpack_III (body.take 12) with
                | .error e => .error e
                | .ok (version, response, tag) =>
                    if version = VERSION then
                      match _unpack response (.bytes (body.drop 12)) with
                      | .error e => .error e
                      | .ok p => .ok (response, tag, p)
                    else .error (.muxVersionError (.invalidVersion VERSION version))

end BinaryProtocol

/-! ## Plist codec (`usbmux/connection/protocols/plist_protocol.py`)

The plist (de)serialization library is an external collaborator, "consumed as
a black-box codec for structured record to bytes and back" (spec section 1).
The serialized body is therefore modelled as the structured record itself: a
top-level dictionary whose keys are the `Payload` field names (a key is
present iff the `Option` is `some`), with the `Properties` key holding the
nested dictionary `dataclasses.asdict` produces for `_Properties` (all six
keys present, values possibly `None`, since `remove_none` only strips the top
level). `plistlib.dumps` raises `TypeError` on any `None` value. -/

/-- The nested dictionary `asdict` produces for a `_Properties` value: all six
keys present, each value possibly `None`. -/
structure PropsDict where
  ConnectionType : Option String
  DeviceID : Option Nat
  LocationID : Option Nat
  ProductID : Option Nat
  SerialNumber : Option String
  UDID : Option String
  deriving DecidableEq

/-- The top-level dictionary after `remove_none(asdict(payload))`: a field is
`some` iff the corresponding key is present. -/
structure PlistDict where
  ClientVersionString : Option String := none
  ProgName : Option String := none
  MessageType : Option String := none
  Number : Option Nat := none
  DeviceID : Option Nat := none
  PortNumber : Option Nat := none
  Properties : Option PropsDict := none
  PairRecordID : Option String := none
  PairRecordData : Option (List Nat) := none
  deriving DecidableEq

/-- `dataclasses.asdict` on a `_Properties` value. -/
def propsAsdict (p : _Properties) : PropsDict :=
  ⟨p.ConnectionType, p.DeviceID, p.LocationID, p.ProductID, p.SerialNumber, p.UDID⟩

/-- `remove_none(asdict(payload))` in `PlistProtocol.send_packet`:
`asdict` lists every field, and `remove_none` drops the top-level keys whose
value is `None` (the two plain string fields are always present). The nested
`Properties` dictionary is kept as is, `None` values included. -/
def remove_none_asdict (p : Payload) : PlistDict where
  ClientVersionString := some p.ClientVersionString
  ProgName := some p.ProgName
  MessageType := p.MessageType
  Number := p.Number
  DeviceID := p.DeviceID
  PortNumber := p.PortNumber
  Properties := p.Properties.map propsAsdict
  PairRecordID := p.PairRecordID
  PairRecordData := p.PairRecordData

/-- True when the nested dictionary still holds a `None` value. -/
def propsHasNone (d : PropsDict) : Bool :=
  d.ConnectionType.isNone || d.DeviceID.isNone || d.LocationID.isNone ||
  d.ProductID.isNone || d.SerialNumber.isNone || d.UDID.isNone

/-- `plistlib.dumps`, black-box (spec section 1): serialization is modelled as
the identity on the structured record, but `plistlib` rejects `None` values
with `TypeError`; after `remove_none` the only place a `None` can remain is
inside a nested `Properties` dictionary. -/
def dumps (d : PlistDict) : Except PyErr PlistDict :=
  match d.Properties with
  | some props => if propsHasNone props then .error .typeError else .ok d
  | none => .ok d

/-- `plistlib.loads`, black-box inverse of `dumps`. -/
def loads (d : PlistDict) : PlistDict := d

namespace PlistProtocol

def TYPE_RESULT : String := "Result"
def TYPE_CONNECT : String := "Connect"
def TYPE_LISTEN : String := "Listen"
def TYPE_DEVICE_ADD : String := "Attached"
def TYPE_DEVICE_REMOVE : String := "Detached"
def TYPE_PLIST : Nat := 8
def VERSION : Nat := 1

/-- `PlistProtocol.__request_type(request)`: a string request passes through;
the legacy integers `2` and `3` map to `"Connect"` and `"Listen"`; any other
integer raises `KeyError` from the dictionary lookup. -/
def __request_type (request : RequestTypeT) : Except PyErr String :=
  match request with
  | .str s => .ok s
  | .int 2 => .ok TYPE_CONNECT
  | .int 3 => .ok TYPE_LISTEN
  | .int _ => .error .keyError

/-- `PlistProtocol.send_packet(request, tag, payload)`. The source first
evaluates `self.__request_type(request)` (which can raise `KeyError`), then
assigns the result to `payload.MessageType` in place, then serializes
`remove_none(asdict(payload))` (which can raise `TypeError`), and only then
calls `BinaryProtocol.send_packet` whose `__is_connected` guard can raise.
The result pairs the payload object as left behind by the call (mutated
whenever the assignment was reached) with the framed packet content
`(TYPE_PLIST, tag, body)` or the error. -/
def send_packet (connected : Bool) (request : RequestTypeT) (tag : Nat)
    (payload : Payload) : Payload × Except PyErr (Nat × Nat × PlistDict) :=
  match __request_type request with
  | .error e => (payload, .error e)
  | .ok messageType =>
      let payload' := { payload with MessageType := some messageType }
      match dumps (remove_none_asdict payload') with
      | .error e => (payload', .error e)
      | .ok wrapped_payload =>
          if connected then (payload', .error (.muxError .muxConnectedError))
          else (payload', .ok (TYPE_PLIST, tag, wrapped_payload))

/-- The empty dictionary default of `plist_payload.pop('Properties', {})`. -/
def emptyProps : PropsDict := ⟨none, none, none, none, none, none⟩

/-- `PlistProtocol.get_packet()`: `BinaryProtocol.get_packet` runs first with
`_unpack` overridden to the identity, so it performs the `__is_connected`
guard, the framing reads and the version check (against the overridden
`VERSION = 1`) and yields `(response, tag, raw-bytes body)`; the framing reads
are modelled by taking the parsed frame fields as inputs. The plist layer then
requires the outer opcode to be `TYPE_PLIST`, deserializes the body, pops the
`Properties` key (defaulting to the empty dictionary) into a `_Properties`
record, rebuilds a `Payload` (absent keys fall back to the dataclass
defaults), and returns `payload.MessageType or ''` as the response. (The
`isinstance(payload, Payload)` early return in the source is dead code: the
overridden `_unpack` always returns bytes.) -/
def get_packet (connected : Bool) (version response tag : Nat)
    (body : PlistDict) : Except PyErr (String × Nat × Payload) :=
  if connected then .error (.muxError .muxConnectedError)
  else if version ≠ VERSION then
    .error (.muxVersionError (.invalidVersion VERSION version))
  else if response ≠ TYPE_PLIST then
    .error (.muxError (.invalidIncomingResponseType (.int response)))
  else
    let plist_payload := loads body
    let properties := plist_payload.Properties.getD emptyProps
    let structured_payload : Payload :=
      { ClientVersionString := plist_payload.ClientVersionString.getD "qt4i-usbmuxd"
        ProgName := plist_payload.ProgName.getD "tcprelay"
        MessageType := plist_payload.MessageType
        Number := plist_payload.Number
        DeviceID := plist_payload.DeviceID
        PortNumber := plist_payload.PortNumber
        Properties := some ⟨properties.ConnectionType, properties.DeviceID,
                            properties.LocationID, properties.ProductID,
                            properties.SerialNumber, properties.UDID⟩
        PairRecordID := plist_payload.PairRecordID
        PairRecordData := plist_payload.PairRecordData }
    .ok (structured_payload.MessageType.getD "", tag, structured_payload)

/-- Round trip used by the spec: encode a payload with the send path, put the
resulting body on the wire, decode it with the receive path. Returns the
payload object as mutated by the send, and the decoded record (or the
error). -/
def roundTrip (request : RequestTypeT) (p : Payload) :
    Payload × Except PyErr Payload :=
  match send_packet false request 1 p with
  | (p', .error e) => (p', .error e)
  | (p', .ok (response, tag, body)) =>
      match get_packet false VERSION response tag body with
      | .error e => (p', .error e)
      | .ok (_, _, decoded) => (p', .ok decoded)

end PlistProtocol

/-! ## Connection (`usbmux/connection/connection.py`)

The connection owns one codec and one socket. The codec is abstracted to its
opcode constants plus the packet the daemon interaction yields (the byte-level
behavior of each codec is modelled above); the `__is_connected` guard both
codecs inherit from `BinaryProtocol.send_packet` and `get_packet` is inlined
at the call sites. A packet handed to the connection is the
`(response, tag, data)` triple `self.__protocol.get_packet()` returns. -/

/-- The five opcode constants a codec exposes (`Protocol` in
`usbmux/connection/protocols/protocol.py`). -/
structure ProtocolConsts where
  TYPE_RESULT : RequestTypeT
  TYPE_CONNECT : RequestTypeT
  TYPE_LISTEN : RequestTypeT
  TYPE_DEVICE_ADD : RequestTypeT
  TYPE_DEVICE_REMOVE : RequestTypeT
  deriving DecidableEq

/-- The binary codec's opcode constants. -/
def binaryTypes : ProtocolConsts :=
  ⟨.int 1, .int 2, .int 3, .int 4, .int 5⟩

/-- The plist codec's opcode constants. -/
def plistTypes : ProtocolConsts :=
  ⟨.str "Result", .str "Connect", .str "Listen", .str "Attached", .str "Detached"⟩

/-- A decoded packet as returned by `self.__protocol.get_packet()`. -/
abbrev Packet := RequestTypeT × Nat × TypesPayload

/-- The mutable state of a `Connection`: the tag counter (initially `1`), the
codec's `connected` flag, the device registry and whether `close()` ran. -/
structure ConnState where
  packet_tag : Nat := 1
  connected : Bool := false
  devices : List Device := []
  closed : Bool := false
  deriving DecidableEq

/-- `list.remove(x)` : removes the first element equal to the argument.
(`Device` defines no `__eq__`, so Python compares identities; the structural
model coincides whenever the registry holds no two structurally equal
devices.) -/
def listRemove (l : List Device) (d : Device) : List Device :=
  match l with
  | [] => []
  | x :: xs => if x = d then xs else x :: listRemove xs d

/-- Fuel-indexed helper for `removeScan`: one fuel unit per iterator
advance. The iterator index `i` grows by one per step while the list length
never grows, so `l.length - i` units suffice and the fuel never runs out
before the loop condition `i < len` fails. -/
def removeScanAux (target : Option Nat) : Nat → List Device → Nat → List Device
  | 0, l, _ => l
  | fuel + 1, l, i =>
      if h : i < l.length then
        let d := l.get ⟨i, h⟩
        if d.device_id = target then removeScanAux target fuel (listRemove l d) (i + 1)
        else removeScanAux target fuel l (i + 1)
      else l

/-- The list comprehension
`[self.__devices.remove(device) for device in self.__devices if device.device_id == data.DeviceID]`
in `Connection._process_packet`: Python iterates by internal index over the
list while `remove` mutates it, so each removal shifts the remaining elements
one position left under the iterator; the loop ends once the index reaches
the current length. -/
def removeScan (target : Option Nat) (l : List Device) (i : Nat) : List Device :=
  removeScanAux target (l.length - i) l i

/-- `Connection._get_reply()`: reads one packet (the `__is_connected` guard of
`get_packet` inlined), returns `(tag, data)` when the opcode is the codec's
`TYPE_RESULT` and raises the invalid-packet-type error otherwise. -/
def _get_reply (consts : ProtocolConsts) (connected : Bool) (packet : Packet) :
    Except PyErr (Nat × TypesPayload) :=
  if connected then .error (.muxError .muxConnectedError)
  else
    let (response, tag, data) := packet
    if response = consts.TYPE_RESULT then .ok (tag, data)
    else .error (.muxError (.invalidPacketType response))

/-- `Connection._exchange(request, payload)` given the daemon's reply packet:
reads and increments the tag counter, sends the request (the codec's
`__is_connected` guard inlined; body packing and the socket write are modelled
by the codecs above), reads the reply through `_get_reply`, requires a
structured payload, requires the echoed tag to equal the allocated tag, and
returns the reply's `Number`. Every path leaves the incremented tag counter
behind. -/
def _exchange (consts : ProtocolConsts) (st : ConnState)
    (_request : RequestTypeT) (_payload : Payload) (reply : Packet) :
    ConnState × Except PyErr (Option Nat) :=
  let previous_tag := st.packet_tag
  let st' := { st with packet_tag := st.packet_tag + 1 }
  let result : Except PyErr (Option Nat) :=
    if st'.connected then .error (.muxError .muxConnectedError)
    else
      match _get_reply consts st'.connected reply with
      | .error e => .error e
      | .ok (received_tag, data) =>
          match data with
          | .bytes _ => .error (.muxError .invalidPayload)
          | .payload p =>
              if received_tag ≠ previous_tag then
                .error (.muxError (.tagMismatch previous_tag received_tag))
              else .ok p.Number
  (st', result)

/-- `Connection.listen()` given the daemon's reply packet: one `LISTEN`
exchange with an empty payload; a truthy reply `Number` raises the
listen-failed error. -/
def listen (consts : ProtocolConsts) (st : ConnState) (reply : Packet) :
    ConnState × Option PyErr :=
  match _exchange consts st consts.TYPE_LISTEN {} reply with
  | (st', .error e) => (st', some e)
  | (st', .ok number) =>
      match number with
      | some n =>
          if n ≠ 0 then (st', some (.muxError (.listenFailed n))) else (st', none)
      | none => (st', none)

/-- `Connection._process_packet()` given the packet read from the codec: the
`DEVICE_ADD` branch appends a device (full-properties path when the payload
carries a `_Properties` instance, id-only path otherwise) and returns; the
`DEVICE_REMOVE` branch removes matching devices but does not return, so
control falls through to the trailing checks and the invalid-packet-type
error is raised; any other non-`RESULT` opcode raises invalid-packet-type and
a `RESULT` raises unexpected-result. Returns the registry as left behind
together with the raised error, if any. -/
def _process_packet (consts : ProtocolConsts) (devices : List Device)
    (packet : Packet) : List Device × Option PyErr :=
  let (response, _, data) := packet
  if response = consts.TYPE_DEVICE_ADD then
    match data with
    | .bytes _ => (devices, some (.muxError .invalidPayload))
    | .payload p =>
        match p.Properties with
        | none => (devices ++ [{ device_id := p.DeviceID }], none)
        | some properties =>
            (devices ++ [{ device_id := p.DeviceID,
                           usb_product_id := properties.ProductID,
                           serial := properties.SerialNumber,
                           location := properties.LocationID }], none)
  else
    let step : List Device × Option PyErr :=
      if response = consts.TYPE_DEVICE_REMOVE then
        match data with
        | .bytes _ => (devices, some (.muxError .invalidPayload))
        | .payload p => (removeScan p.DeviceID devices 0, none)
      else (devices, none)
    match step with
    | (ds, some e) => (ds, some e)
    | (ds, none) =>
        if response ≠ consts.TYPE_RESULT then
          (ds, some (.muxError (.invalidPacketType response)))
        else (ds, some (.muxError (.unexpectedResult response)))

/-- The outcome of the `select` call in `Connection.process`, exceptional
conditions taking priority (the source checks `xlo` first). -/
inductive Ready where
  | exceptional
  | readable
  | timedOut
  deriving DecidableEq

/-- `Connection.process(timeout)` given the readiness outcome and the packet a
readable socket would deliver: fails immediately with the socket-is-connected
error when the codec's `connected` flag is set; an exceptional condition
closes the socket and raises the listener error; a readable socket triggers
one `_process_packet`; a timeout is a silent no-op. -/
def process (consts : ProtocolConsts) (st : ConnState) (ready : Ready)
    (packet : Packet) : ConnState × Option PyErr :=
  if st.connected then (st, some (.muxError .socketIsConnected))
  else
    match ready with
    | .exceptional => ({ st with closed := true }, some (.muxError .socketListenerError))
    | .readable =>
        let (ds, e) := _process_packet consts st.devices packet
        ({ st with devices := ds }, e)
    | .timedOut => (st, none)

/-- `Connection.connect(device, port)` given the daemon's reply packet: builds
the payload from the device id and the byte-swapped port, runs a `CONNECT`
exchange, treats a falsy reply `Number` (`None` or `0`) as the
connection-failed error, and only on a truthy `Number` sets the codec's
`connected` flag. -/
def connect (consts : ProtocolConsts) (st : ConnState) (device : Device)
    (port : Nat) (reply : Packet) : ConnState × Except PyErr Unit :=
  let port_number := swap16 port
  let payload : Payload := { DeviceID := device.device_id, PortNumber := some port_number }
  match _exchange consts st consts.TYPE_CONNECT payload reply with
  | (st', .error e) => (st', .error e)
  | (st', .ok number) =>
      match number with
      | none => (st', .error (.muxError (.connectionFailed none)))
      | some 0 => (st', .error (.muxError (.connectionFailed (some 0))))
      | some (_ + 1) => ({ st' with connected := true }, .ok ())

/-- `Client.get_pair_record(udid)` of `usbmux/connection/client.py` given the
daemon's reply packet: allocates a tag exactly like `_exchange`, sends a
`"ReadPairRecord"` request, and checks the echoed tag. (On a tag mismatch the
source formats `TAG_MISMATCH` with a misspelled `excepted` keyword, so
`str.format` raises `KeyError` before any `MuxError` is built.) The reply must
be a structured payload whose `PairRecordData` is raw bytes; the decoded
pairing record is black-box, so the raw bytes are returned. -/
def get_pair_record (st : ConnState) (_udid : String) (reply : Packet) :
    ConnState × Except PyErr (List Nat) :=
  let tag := st.packet_tag
  let st' := { st with packet_tag := st.packet_tag + 1 }
  let result : Except PyErr (List Nat) :=
    if st'.connected then .error (.muxError .muxConnectedError)
    else
      let (_, received_tag, data) := reply
      if received_tag ≠ tag then .error .keyError
      else
        match data with
        | .bytes _ => .error (.muxError .invalidPayload)
        | .payload p =>
            match p.PairRecordData with
            | some record => .ok record
            | none => .error (.muxError .invalidPayload)
  (st', result)

/-! ## Sequences of control-plane attempts and of tagged exchanges -/

/-- One control-plane attempt on a connection driven by the binary codec: a
`send_packet`, a `get_packet`, or one poll step, each carrying the data the
attempt would use. -/
inductive ControlAttempt where
  | send (request : Nat) (tag : Nat) (payload : TypesPayload)
  | recv (stream : List Nat)
  | poll (ready : Ready) (packet : Packet)
  deriving DecidableEq

/-- Performs one control-plane attempt, returning the next state and the
raised error, if any. `send_packet` and `get_packet` never touch the
connection state; the poll step may. -/
def attemptStep (st : ConnState) : ControlAttempt → ConnState × Option PyErr
  | .send request tag payload =>
      (st, match BinaryProtocol.send_packet st.connected request tag payload with
           | .ok _ => none
           | .error e => some e)
  | .recv stream =>
      (st, match BinaryProtocol.get_packet st.connected stream with
           | .ok _ => none
           | .error e => some e)
  | .poll ready packet => process binaryTypes st ready packet

/-- Runs a sequence of control-plane attempts, collecting each attempt's
raised error (if any). -/
def runAttempts (st : ConnState) : List ControlAttempt → List (Option PyErr)
  | [] => []
  | a :: rest =>
      let (st', e) := attemptStep st a
      e :: runAttempts st' rest

/-- The error each kind of control-plane attempt raises on a connection whose
`connected` flag is set: the codec guard raises the mux-connected message, the
poll step raises the socket-is-connected message (both `MuxError`s guarding
control traffic after the relay handoff, spec section 7). -/
def expectedConnectedError : ControlAttempt → Option PyErr
  | .send _ _ _ => some (.muxError .muxConnectedError)
  | .recv _ => some (.muxError .muxConnectedError)
  | .poll _ _ => some (.muxError .socketIsConnected)

/-- One tag-allocating operation on a single connection instance: a
`Connection._exchange` (as performed by `listen` and `connect`) or a
`Client.get_pair_record`, with the data the operation would use. -/
inductive TaggedOp where
  | exchangeOp (consts : ProtocolConsts) (request : RequestTypeT)
      (payload : Payload) (reply : Packet)
  | getPairRecordOp (udid : String) (reply : Packet)

/-- The connection state a tagged operation leaves behind. -/
def opNext (st : ConnState) : TaggedOp → ConnState
  | .exchangeOp consts request payload reply =>
      (_exchange consts st request payload reply).1
  | .getPairRecordOp udid reply => (get_pair_record st udid reply).1

/-- The tags a sequence of tagged operations allocates, in order: each
operation allocates the current value of the tag counter. -/
def runTags (st : ConnState) : List TaggedOp → List Nat
  | [] => []
  | op :: rest => st.packet_tag :: runTags (opNext st op) rest

/-! ## Concrete wire data used by individual claims -/

/-- A well-formed binary frame around a body: total length (header included)
then version, opcode and tag, as `BinaryProtocol.send_packet` lays it out. -/
def frame (version response tag : Nat) (body : List Nat) : List Nat :=
  enU32 (16 + body.length) ++ enU32 version ++ enU32 response ++ enU32 tag ++ body

/-- Modelled from the spec: the decode direction of the `CONNECT` body
round-trip property (spec section 8). The repository encodes `CONNECT`
bodies in `BinaryProtocol._pack` but never decodes one, so the decoder is the
inverse reading of the documented layout `{device_id: u32, port_number: u16}`
plus two padding bytes (4+2+2 = 8 bytes, spec section 4.3). -/
def decodeConnectBody (b : List Nat) : Option (Nat × Nat) :=
  if b.length = 8 then some (u32At b 0, u16At b 4) else none

/-- A 268-byte `DEVICE_ADD` body (the exact size format `IH256sHI` requires):
device id 1, product id 4660, a 256-byte serial field holding `ABC123`
followed by NUL bytes, zero padding, location 5. -/
def c2Body268 : List Nat :=
  enU32 1 ++ enU16 4660 ++ ([65, 66, 67, 49, 50, 51] ++ List.replicate 250 0) ++
    enU16 0 ++ enU32 5

/-- The same `DEVICE_ADD` body padded to the 270 bytes the claim speaks of. -/
def c2Body270 : List Nat := c2Body268 ++ [0, 0]

/-- A binary frame whose header version matches `VERSION = 0` but whose
opcode `99` is not a recognized response type; its body is empty. -/
def c5Stream : List Nat := frame 0 99 7 []

/-- A concrete two-operation sequence of tagged exchanges: one pairing-record
fetch, one listen exchange. -/
def c8Ops : List TaggedOp :=
  [TaggedOp.getPairRecordOp "udid" (.int 8, 1, .bytes []),
   TaggedOp.exchangeOp binaryTypes (.int 3) {} (.int 1, 1, .payload {})]

/-! # Theorems

Shared helper lemmas first, then one theorem per claim (with counterexamples
and witnesses where required). -/

/-! ## Arithmetic of the port byte swap -/

theorem shiftLeft_land_ff00 (P : Nat) : (P <<< 8) &&& 0xFF00 = P % 256 * 256 := by
  apply Nat.eq_of_testBit_eq
  intro i
  have h0 : (0xFF00 : Nat) = (2 ^ 8 - 1) <<< 8 := by
    rw [Nat.shiftLeft_eq]; norm_num
  have h1 : P % 256 * 256 = (P % 2 ^ 8) <<< 8 := by
    rw [Nat.shiftLeft_eq]; norm_num
  rw [h0, h1, Nat.testBit_and, Nat.testBit_shiftLeft, Nat.testBit_shiftLeft,
    Nat.testBit_shiftLeft, Nat.testBit_two_pow_sub_one, Nat.testBit_mod_two_pow]
  by_cases h8 : i ≥ 8
  · simp [h8, Bool.and_comm]
  · simp [h8]

theorem mul_256_lor_small (a b : Nat) (hb : b < 256) :
    a * 256 ||| b = a * 256 + b := by
  apply Nat.eq_of_testBit_eq
  intro i
  have hmod : (a * 256 + b) % 2 ^ 8 = b := by
    have h : (256 : Nat) = 2 ^ 8 := by norm_num
    omega
  have hdiv : (a * 256 + b) / 2 ^ 8 = a := by
    have h : (256 : Nat) = 2 ^ 8 := by norm_num
    omega
  have hshift : (a * 256).testBit i = (decide (i ≥ 8) && a.testBit (i - 8)) := by
    rw [show a * 256 = a <<< 8 from by rw [Nat.shiftLeft_eq], Nat.testBit_shiftLeft]
  rw [Nat.testBit_or, hshift]
  by_cases h8 : i ≥ 8
  · have hbc : b.testBit i = false := by
      apply Nat.testBit_lt_two_pow
      calc b < 256 := hb
        _ = 2 ^ 8 := by norm_num
        _ ≤ 2 ^ i := Nat.pow_le_pow_right (by norm_num) h8
    have heq : (a * 256 + b).testBit i = a.testBit (i - 8) := by
      have h' : (a * 256 + b).testBit (8 + (i - 8)) = a.testBit (i - 8) := by
        rw [← Nat.testBit_shiftRight, Nat.shiftRight_eq_div_pow, hdiv]
      rw [show 8 + (i - 8) = i from by omega] at h'
      exact h'
    simp [h8, hbc, heq]
  · have heq : (a * 256 + b).testBit i = b.testBit i := by
      have h' := Nat.testBit_mod_two_pow (a * 256 + b) 8 i
      rw [hmod] at h'
      rw [h', decide_eq_true (by omega : i < 8), Bool.true_and]
    simp [h8, heq]

/-- The byte swap in closed arithmetic form, for ports below `2^16`. -/
theorem swap16_eq {P : Nat} (h : P < 65536) :
    swap16 P = P % 256 * 256 + P / 256 := by
  unfold swap16
  rw [shiftLeft_land_ff00, Nat.shiftRight_eq_div_pow,
    show (2 : Nat) ^ 8 = 256 from by norm_num]
  exact mul_256_lor_small _ _ (by omega)

theorem swap16_lt {P : Nat} (h : P < 65536) : swap16 P < 65536 := by
  rw [swap16_eq h]
  omega

/-- The byte swap is an involution on 16-bit values. -/
theorem swap16_swap16 {P : Nat} (h : P < 65536) : swap16 (swap16 P) = P := by
  rw [swap16_eq h, swap16_eq (show P % 256 * 256 + P / 256 < 65536 from by omega)]
  omega

/-! ## Parsing a well-formed binary frame -/

theorem receive_append (n : Nat) (pre rest : List Nat) (hn : pre.length = n) :
    BinaryProtocol.receive n (pre ++ rest) = .ok (pre, rest) := by
  subst hn
  simp [BinaryProtocol.receive, List.take_left, List.drop_left, Nat.le_add_right]

theorem receive_all (l : List Nat) (n : Nat) (hn : l.length = n) :
    BinaryProtocol.receive n l = .ok (l, []) := by
  subst hn
  simp [BinaryProtocol.receive]

theorem unpack_I_enU32 (n : Nat) (h : n < 4294967296) :
    unpack_I (enU32 n) = .ok n := by
  simp only [unpack_I, enU32, deU32]
  congr 1
  omega

theorem unpack_III_enU32 (a b c : Nat) (ha : a < 4294967296)
    (hb : b < 4294967296) (hc : c < 4294967296) :
    unpack_III (enU32 a ++ enU32 b ++ enU32 c) = .ok (a, b, c) := by
  simp only [enU32, List.cons_append, List.nil_append, unpack_III, deU32]
  refine congrArg Except.ok ?_
  refine Prod.ext ?_ (Prod.ext ?_ ?_) <;> simp <;> omega

/-- Reading a well-formed frame: the length prefix and the header parse back,
the version gate decides between the distinguishable version error and
`_unpack` of the body. -/
theorem get_packet_frame (v r t : Nat) (body : List Nat)
    (hv : v < 4294967296) (hr : r < 4294967296) (ht : t < 4294967296)
    (hb : 16 + body.length < 4294967296) :
    BinaryProtocol.get_packet false (frame v r t body) =
      if v = BinaryProtocol.VERSION then
        match BinaryProtocol._unpack r (.bytes body) with
        | .ok p => .ok (r, t, p)
        | .error e => .error e
      else .error (.muxVersionError (.invalidVersion BinaryProtocol.VERSION v)) := by
  have hpre : (enU32 v ++ enU32 r ++ enU32 t).length = 12 := by
    simp [enU32]
  have hrest : (enU32 v ++ enU32 r ++ enU32 t ++ body).length =
      (16 + body.length) - BinaryProtocol.SOCKET_PADDING := by
    simp [enU32, BinaryProtocol.SOCKET_PADDING]
    omega
  unfold frame BinaryProtocol.get_packet
  rw [show enU32 (16 + body.length) ++ enU32 v ++ enU32 r ++ enU32 t ++ body
      = enU32 (16 + body.length) ++ (enU32 v ++ enU32 r ++ enU32 t ++ body) from by
    simp [List.append_assoc]]
  rw [receive_append BinaryProtocol.SOCKET_PADDING (enU32 (16 + body.length)) _ rfl]
  simp only
  rw [unpack_I_enU32 _ hb]
  simp only
  rw [receive_all _ _ hrest]
  simp only
  rw [show enU32 v ++ enU32 r ++ enU32 t ++ body
      = (enU32 v ++ enU32 r ++ enU32 t) ++ body from by simp [List.append_assoc],
    List.take_left' hpre, List.drop_left' hpre,
    unpack_III_enU32 v r t hv hr ht]
  cases hu : BinaryProtocol._unpack r (TypesPayload.bytes body) <;>
    by_cases hv0 : v = BinaryProtocol.VERSION <;>
      simp [hu, hv0]

theorem unpack_I_error (b : List Nat) (e : PyErr) (h : unpack_I b = .error e) :
    e = .structError := by
  unfold unpack_I at h
  split at h <;> simp_all

/-- `_unpack` never raises the version-mismatch subtype: its failures are
`NotImplementedError`, `struct.error`, `TypeError` or the generic invalid
incoming response `MuxError`. -/
theorem _unpack_no_version (r : Nat) (pl : TypesPayload) (m : Msg) :
    BinaryProtocol._unpack r pl ≠ .error (.muxVersionError m) := by
  cases pl with
  | payload p => simp [BinaryProtocol._unpack]
  | bytes b =>
      simp only [BinaryProtocol._unpack]
      split_ifs with h1 h2 h3 h4
      · cases hu : unpack_I b with
        | ok n => simp [hu]
        | error e =>
            have he := unpack_I_error b e hu
            subst he
            simp only [hu]
            intro hcon
            exact PyErr.noConfusion (Except.error.inj hcon)
      · cases hu : unpack_I b with
        | ok n => simp [hu]
        | error e =>
            have he := unpack_I_error b e hu
            subst he
            simp only [hu]
            intro hcon
            exact PyErr.noConfusion (Except.error.inj hcon)
      · simp only [BinaryProtocol.bytesSplitStr]
        intro hcon
        exact PyErr.noConfusion (Except.error.inj hcon)
      · intro hcon
        exact PyErr.noConfusion (Except.error.inj hcon)
      · intro hcon
        exact PyErr.noConfusion (Except.error.inj hcon)

/-! ## Claim C1 -/

/-- C1: the claim says a poll step reading a `DEVICE_REMOVE` packet with a
structured payload removes the matching registry entries and completes
without raising, and in particular is an error-free no-op when no entry
matches. The code violates this: the `DEVICE_REMOVE` branch of
`_process_packet` has no `return`, so control falls through to the
`response != TYPE_RESULT` check and a `MuxError` with the invalid-packet-type
message is raised on every `DEVICE_REMOVE` packet — with an empty registry
(device id not present) the registry is unchanged but the error is still
raised, and with matching entries the entries are removed and the error is
raised as well. -/
theorem process_device_remove_raises :
    process binaryTypes {} .readable
        (binaryTypes.TYPE_DEVICE_REMOVE, 1, .payload { DeviceID := some 1 }) =
      ({}, some (.muxError (.invalidPacketType (.int 5))))
    ∧ process binaryTypes
        { devices := [{ device_id := some 1 }, { device_id := some 2 }] } .readable
        (binaryTypes.TYPE_DEVICE_REMOVE, 1, .payload { DeviceID := some 1 }) =
      ({ devices := [{ device_id := some 2 }] },
        some (.muxError (.invalidPacketType (.int 5)))) :=
  ⟨rfl, rfl⟩

/-! ## Claim C2 -/

set_option maxRecDepth 8192

/-- C2: the claim says a `DEVICE_ADD` body decodes to a payload whose
`SerialNumber` is the serial field truncated at the first NUL. The code
violates this on two counts: format `IH256sHI` requires a body of exactly 268
bytes (not 270, so a 270-byte body already fails the buffer-size check of
`struct.unpack`), and even on a well-sized body `struct.unpack` yields
`bytes` for the `256s` field in Python 3, so `serial_number.split("\0")`
raises `TypeError` (a `str` separator on a `bytes` object) before any payload
is built: the decode never returns. -/
theorem device_add_decode_raises :
    c2Body268.length = 268
    ∧ BinaryProtocol._unpack BinaryProtocol.TYPE_DEVICE_ADD (.bytes c2Body268) =
        .error .typeError
    ∧ c2Body270.length = 270
    ∧ BinaryProtocol._unpack BinaryProtocol.TYPE_DEVICE_ADD (.bytes c2Body270) =
        .error .structError :=
  ⟨rfl, rfl, rfl, rfl⟩

/-! ## Claim C5 -/

/-- C5 counterexample: a frame whose header version field (bytes 4..7) equals
the expected `VERSION = 0` but whose opcode is the unrecognized `99` is not
"decoded and returned normally": the receive path raises the generic
invalid-incoming-response `MuxError` (not the version-mismatch subtype), so
the claim's "when the versions match, the packet is decoded and returned
normally" is false at this input. -/
theorem get_packet_version_match_not_normal :
    u32At c5Stream 4 = BinaryProtocol.VERSION
    ∧ BinaryProtocol.get_packet false c5Stream =
        .error (.muxError (.invalidIncomingResponseType (.int 99))) :=
  ⟨rfl, rfl⟩

/-- C5 (amended): for every well-formed binary frame, the receive path raises
the distinguishable version-mismatch error if and only if the header's
version field differs from the codec's expected version; when the versions
match, the result is never a version error — it is the decoded packet
whenever the body decodes (recognized response opcode and well-formed body),
and the body decoder's own error otherwise. -/
theorem get_packet_version_iff (v r t : Nat) (body : List Nat)
    (hv : v < 4294967296) (hr : r < 4294967296) (ht : t < 4294967296)
    (hb : 16 + body.length < 4294967296) :
    (isVersionError (BinaryProtocol.get_packet false (frame v r t body)) = true
      ↔ v ≠ BinaryProtocol.VERSION)
    ∧ (v = BinaryProtocol.VERSION →
        BinaryProtocol.get_packet false (frame v r t body) =
          match BinaryProtocol._unpack r (.bytes body) with
          | .ok p => .ok (r, t, p)
          | .error e => .error e) := by
  rw [get_packet_frame v r t body hv hr ht hb]
  constructor
  · by_cases hv0 : v = BinaryProtocol.VERSION
    · simp only [hv0, if_pos rfl]
      cases hu : BinaryProtocol._unpack r (.bytes body) with
      | ok p => simp [isVersionError]
      | error e =>
          cases e with
          | muxVersionError m => exact absurd hu (_unpack_no_version r _ m)
          | muxError m => simp [isVersionError]
          | valueError m => simp [isVersionError]
          | structError => simp [isVersionError]
          | typeError => simp [isVersionError]
          | keyError => simp [isVersionError]
          | notImplementedError => simp [isVersionError]
    · simp [hv0, isVersionError]
  · intro hv0
    simp [hv0]

/-- C5 witness: the iff and the normal-decode clause instantiated at a
well-formed `RESULT` frame with matching version. -/
theorem get_packet_version_iff_witness :
    (0 : Nat) < 4294967296 ∧ (1 : Nat) < 4294967296 ∧ (7 : Nat) < 4294967296
    ∧ 16 + ([3, 0, 0, 0] : List Nat).length < 4294967296
    ∧ ((isVersionError (BinaryProtocol.get_packet false (frame 0 1 7 [3, 0, 0, 0])) = true
          ↔ (0 : Nat) ≠ BinaryProtocol.VERSION)
        ∧ ((0 : Nat) = BinaryProtocol.VERSION →
            BinaryProtocol.get_packet false (frame 0 1 7 [3, 0, 0, 0]) =
              match BinaryProtocol._unpack 1 (.bytes [3, 0, 0, 0]) with
              | .ok p => .ok (1, 7, p)
              | .error e => .error e)) :=
  ⟨by decide, by decide, by decide, by decide,
    get_packet_version_iff 0 1 7 [3, 0, 0, 0] (by decide) (by decide) (by decide) (by decide)⟩

/-! ## Claim C7 -/

/-- C7: for every device id `D` below `2^32` and port `P` up to `65535`,
packing a `CONNECT` payload `{DeviceID := D, PortNumber := swap16 P}` (the
byte-swapped port exactly as `Connection.connect` computes it) through the
binary codec yields the 8-byte body `u32(D) ++ u16(swapped port) ++ [0, 0]`,
decoding that body recovers `D` and the swapped port, and applying the 16-bit
byte swap again to the decoded port recovers `P`. -/
theorem connect_payload_roundtrip (D P : Nat) (hD : D < 4294967296) (hP : P ≤ 65535) :
    BinaryProtocol._pack BinaryProtocol.TYPE_CONNECT
        (.payload { DeviceID := some D, PortNumber := some (swap16 P) }) =
      .ok (enU32 D ++ enU16 (swap16 P) ++ [0, 0])
    ∧ (enU32 D ++ enU16 (swap16 P) ++ [0, 0]).length = 8
    ∧ decodeConnectBody (enU32 D ++ enU16 (swap16 P) ++ [0, 0]) = some (D, swap16 P)
    ∧ swap16 (swap16 P) = P := by
  have hP' : P < 65536 := by omega
  have hsw : swap16 P < 65536 := swap16_lt hP'
  refine ⟨?_, ?_, ?_, swap16_swap16 hP'⟩
  · simp [BinaryProtocol._pack, BinaryProtocol.TYPE_CONNECT, BinaryProtocol.TYPE_LISTEN,
      pack_IH, hD, hsw]
  · simp [enU32, enU16]
  · have hform : decodeConnectBody (enU32 D ++ enU16 (swap16 P) ++ [0, 0]) =
        some (deU32 (D % 256) (D / 256 % 256) (D / 65536 % 256) (D / 16777216 % 256),
              deU16 (swap16 P % 256) (swap16 P / 256 % 256)) := rfl
    rw [hform]
    simp only [deU32, deU16, Option.some.injEq, Prod.mk.injEq]
    omega

/-- C7 witness: the round trip instantiated at device id `77` and port
`8080`. -/
theorem connect_payload_roundtrip_witness :
    (77 : Nat) < 4294967296 ∧ (8080 : Nat) ≤ 65535
    ∧ (BinaryProtocol._pack BinaryProtocol.TYPE_CONNECT
          (.payload { DeviceID := some 77, PortNumber := some (swap16 8080) }) =
        .ok (enU32 77 ++ enU16 (swap16 8080) ++ [0, 0])
      ∧ (enU32 77 ++ enU16 (swap16 8080) ++ [0, 0]).length = 8
      ∧ decodeConnectBody (enU32 77 ++ enU16 (swap16 8080) ++ [0, 0]) =
          some (77, swap16 8080)
      ∧ swap16 (swap16 8080) = 8080) :=
  ⟨by decide, by decide, connect_payload_roundtrip 77 8080 (by decide) (by decide)⟩

/-! ## Claim C3 -/

/-- C3 counterexample: the claim says every field absent in the input payload
is absent in the decoded output. For the default payload (both `MessageType`
and `Properties` absent) sent as a `"Listen"` request, the decoded record has
`MessageType = "Listen"` (the send path overwrote it) and `Properties` equal
to the present empty record (the receive path always materializes one), so
two absent input fields are present in the output. -/
theorem plist_roundtrip_not_identity :
    Payload.MessageType {} = none
    ∧ Payload.Properties {} = none
    ∧ (PlistProtocol.roundTrip (.str "Listen") {}).2 =
        .ok { MessageType := some "Listen", Properties := some {} } :=
  ⟨rfl, rfl, rfl⟩

/-- C3 (amended): for every payload whose `Properties` is either absent or
fully populated (no `None` subfield — otherwise `plistlib.dumps` raises
`TypeError`, since `remove_none` strips only the top level), encoding with the
plist send path and decoding the body with the receive path preserves every
top-level field except the two the codec rewrites: `MessageType` becomes the
request string and `Properties` becomes the input record when present and the
empty record when absent; every other present field is preserved exactly and
every other absent field stays absent. -/
theorem plist_roundtrip_preserves (s : String) (p : Payload)
    (hprops : p.Properties = none ∨
      ∃ pr, p.Properties = some pr ∧ propsHasNone (propsAsdict pr) = false) :
    (PlistProtocol.roundTrip (.str s) p).2 =
      .ok { p with MessageType := some s,
                   Properties := some (p.Properties.getD {}) } := by
  rcases hprops with h | ⟨pr, hpr, hnone⟩
  · simp [PlistProtocol.roundTrip, PlistProtocol.send_packet, PlistProtocol.__request_type,
      dumps, remove_none_asdict, h, PlistProtocol.get_packet, loads, PlistProtocol.emptyProps,
      PlistProtocol.TYPE_PLIST, PlistProtocol.VERSION]
  · simp [PlistProtocol.roundTrip, PlistProtocol.send_packet, PlistProtocol.__request_type,
      dumps, remove_none_asdict, hpr, hnone, PlistProtocol.get_packet, loads,
      PlistProtocol.emptyProps, PlistProtocol.TYPE_PLIST, PlistProtocol.VERSION]
    rfl

/-- C3 witness: the amended round trip at a payload with a present `Number`
and `DeviceID`, everything else absent. -/
theorem plist_roundtrip_preserves_witness :
    (Payload.Properties { Number := some 0, DeviceID := some 3 } = none ∨
      ∃ pr, Payload.Properties { Number := some 0, DeviceID := some 3 } = some pr ∧
        propsHasNone (propsAsdict pr) = false)
    ∧ (PlistProtocol.roundTrip (.str "Listen") { Number := some 0, DeviceID := some 3 }).2 =
        .ok { Number := some 0, DeviceID := some 3,
              MessageType := some "Listen", Properties := some {} } :=
  ⟨Or.inl rfl, plist_roundtrip_preserves "Listen" _ (Or.inl rfl)⟩

/-! ## Claim C4 -/

/-- C4: for every tagged exchange whose `RESULT` reply carries a tag other
than the allocated one, `_exchange` fails with the tag-mismatch error naming
the expected (sent) and received tags, `connect` and `listen` propagate that
failure, and the connection's `connected` flag remains false: the only state
change is the tag-counter increment, which the source performs before
sending. -/
theorem exchange_tag_mismatch (consts : ProtocolConsts) (st : ConnState)
    (request : RequestTypeT) (payload data : Payload) (device : Device)
    (port : Nat) (replyTag : Nat)
    (hconn : st.connected = false) (htag : replyTag ≠ st.packet_tag) :
    _exchange consts st request payload (consts.TYPE_RESULT, replyTag, .payload data) =
      ({ st with packet_tag := st.packet_tag + 1 },
        .error (.muxError (.tagMismatch st.packet_tag replyTag)))
    ∧ connect consts st device port (consts.TYPE_RESULT, replyTag, .payload data) =
      ({ st with packet_tag := st.packet_tag + 1 },
        .error (.muxError (.tagMismatch st.packet_tag replyTag)))
    ∧ listen consts st (consts.TYPE_RESULT, replyTag, .payload data) =
      ({ st with packet_tag := st.packet_tag + 1 },
        some (.muxError (.tagMismatch st.packet_tag replyTag)))
    ∧ ({ st with packet_tag := st.packet_tag + 1 } : ConnState).connected = false := by
  have hx : ∀ (req : RequestTypeT) (pl : Payload),
      _exchange consts st req pl (consts.TYPE_RESULT, replyTag, .payload data) =
        ({ st with packet_tag := st.packet_tag + 1 },
          .error (.muxError (.tagMismatch st.packet_tag replyTag))) := by
    intro req pl
    simp [_exchange, _get_reply, hconn, htag]
  refine ⟨hx request payload, ?_, ?_, hconn⟩
  · simp [connect, hx]
  · simp [listen, hx]

/-- C4 witness: the tag-mismatch failure at a fresh connection (allocated tag
`1`) receiving a `RESULT` reply tagged `5`. -/
theorem exchange_tag_mismatch_witness :
    ConnState.connected {} = false ∧ (5 : Nat) ≠ ConnState.packet_tag {}
    ∧ (_exchange binaryTypes {} (.int 3) {} (binaryTypes.TYPE_RESULT, 5, .payload {}) =
        ({ packet_tag := 2 }, .error (.muxError (.tagMismatch 1 5)))
      ∧ connect binaryTypes {} {} 80 (binaryTypes.TYPE_RESULT, 5, .payload {}) =
        ({ packet_tag := 2 }, .error (.muxError (.tagMismatch 1 5)))
      ∧ listen binaryTypes {} (binaryTypes.TYPE_RESULT, 5, .payload {}) =
        ({ packet_tag := 2 }, some (.muxError (.tagMismatch 1 5)))
      ∧ ({ packet_tag := 2 } : ConnState).connected = false) :=
  ⟨rfl, by decide,
    exchange_tag_mismatch binaryTypes {} (.int 3) {} {} {} 80 5 rfl (by decide)⟩

/-! ## Claim C6 -/

theorem attemptStep_connected_eq (st : ConnState) (a : ControlAttempt)
    (h : st.connected = true) :
    attemptStep st a = (st, expectedConnectedError a) := by
  cases a <;>
    simp [attemptStep, BinaryProtocol.send_packet, BinaryProtocol.get_packet, process,
      expectedConnectedError, h]

/-- C6: once the `connected` flag is set, every sequence of control-plane
attempts fails on every attempt: each `send_packet` and each `get_packet`
raises the mux-connected `MuxError` from the codec's `__is_connected` guard,
and each poll step raises the socket-is-connected `MuxError` (both are the
"control packet attempted post-handoff" failures of spec section 7), and no
attempt ever resets the flag, so the state is terminal. -/
theorem connected_rejects_every_attempt (st : ConnState)
    (attempts : List ControlAttempt) (h : st.connected = true) :
    runAttempts st attempts = attempts.map expectedConnectedError := by
  induction attempts generalizing st with
  | nil => rfl
  | cons a rest ih =>
      simp [runAttempts, attemptStep_connected_eq st a h, ih st h]

/-- C6 witness: a connected state rejecting a send, a receive and a poll in
sequence. -/
theorem connected_rejects_every_attempt_witness :
    ConnState.connected { connected := true } = true
    ∧ runAttempts { connected := true }
        [.send 3 9 (.payload {}), .recv [16, 0, 0, 0], .poll .readable (.int 1, 1, .payload {})] =
      List.map expectedConnectedError
        [.send 3 9 (.payload {}), .recv [16, 0, 0, 0], .poll .readable (.int 1, 1, .payload {})] :=
  ⟨rfl, connected_rejects_every_attempt { connected := true } _ rfl⟩

/-! ## Claim C8 -/

theorem opNext_packet_tag (st : ConnState) (op : TaggedOp) :
    (opNext st op).packet_tag = st.packet_tag + 1 := by
  cases op <;> rfl

theorem runTags_length (st : ConnState) (ops : List TaggedOp) :
    (runTags st ops).length = ops.length := by
  induction ops generalizing st with
  | nil => rfl
  | cons op rest ih => simp [runTags, ih]

theorem runTags_get (ops : List TaggedOp) (st : ConnState) (k : Nat)
    (hk : k < (runTags st ops).length) :
    (runTags st ops).get ⟨k, hk⟩ = st.packet_tag + k := by
  induction ops generalizing st k with
  | nil => simp [runTags] at hk
  | cons op rest ih =>
      cases k with
      | zero => rfl
      | succ j =>
          have hj : j < (runTags (opNext st op) rest).length := by
            have h' := hk
            simp only [runTags, List.length_cons] at h'
            omega
          have hstep : (runTags st (op :: rest)).get ⟨j + 1, hk⟩ =
              (runTags (opNext st op) rest).get ⟨j, hj⟩ := rfl
          rw [hstep, ih (opNext st op) j hj, opNext_packet_tag]
          omega

/-- C8: in every sequence of tagged operations (exchanges and pairing-record
fetches) on a single connection, the tag allocated to a later operation is
strictly greater than the tag of every earlier one, and no tag value is ever
allocated twice: the counter is read then incremented on every path,
successful or not. -/
theorem exchange_tags_strictly_increasing (st : ConnState) (ops : List TaggedOp)
    (i j : Nat) (hij : i < j) (hj : j < (runTags st ops).length) :
    (runTags st ops).get ⟨i, Nat.lt_trans hij hj⟩ < (runTags st ops).get ⟨j, hj⟩
    ∧ (runTags st ops).get ⟨i, Nat.lt_trans hij hj⟩ ≠ (runTags st ops).get ⟨j, hj⟩ := by
  rw [runTags_get ops st i (Nat.lt_trans hij hj), runTags_get ops st j hj]
  omega

/-- C8 witness: strict increase and distinctness of the two tags allocated by
a concrete pairing-record fetch followed by a listen exchange. -/
theorem exchange_tags_strictly_increasing_witness :
    (0 : Nat) < 1 ∧ 1 < (runTags {} c8Ops).length
    ∧ ((runTags {} c8Ops).get ⟨0, by decide⟩ < (runTags {} c8Ops).get ⟨1, by decide⟩
      ∧ (runTags {} c8Ops).get ⟨0, by decide⟩ ≠ (runTags {} c8Ops).get ⟨1, by decide⟩) :=
  ⟨by decide, by decide, exchange_tags_strictly_increasing {} c8Ops 0 1 (by decide) (by decide)⟩

/-! ## Claim C9 -/

/-- C9: every payload the plist receive path returns has its `Properties`
field set to a present `_Properties` record (the empty record when the wire
body carries no `Properties` key), never `None`; consequently the poll step's
`DEVICE_ADD` dispatch on such a payload always takes the full-properties
constructor path, appending a device built from the record's `ProductID`,
`SerialNumber` and `LocationID`, and never the id-only path. -/
theorem plist_decode_properties_present (connected : Bool)
    (version response tag : Nat) (body : PlistDict) (s : String) (t : Nat)
    (p : Payload) (devices : List Device) (tg : Nat)
    (h : PlistProtocol.get_packet connected version response tag body = .ok (s, t, p)) :
    ∃ properties, p.Properties = some properties
      ∧ _process_packet plistTypes devices (plistTypes.TYPE_DEVICE_ADD, tg, .payload p) =
        (devices ++ [{ device_id := p.DeviceID,
                       usb_product_id := properties.ProductID,
                       serial := properties.SerialNumber,
                       location := properties.LocationID }], none) := by
  unfold PlistProtocol.get_packet at h
  split_ifs at h with h1 h2 h3
  simp only [loads, Except.ok.injEq, Prod.mk.injEq] at h
  obtain ⟨hs, ht, hp⟩ := h
  subst hp
  exact ⟨_, rfl, rfl⟩

/-- C9 witness: decoding a plist body with no `Properties` key yields a
payload whose `Properties` is the present empty record, and the poll step on
an `Attached` packet with that payload appends through the full-properties
path. -/
theorem plist_decode_properties_present_witness :
    PlistProtocol.get_packet false 1 8 1 {} =
      .ok ("", 1, { Properties := some {} })
    ∧ ∃ properties,
        Payload.Properties { Properties := some {} } = some properties
        ∧ _process_packet plistTypes [] (plistTypes.TYPE_DEVICE_ADD, 0,
            .payload { Properties := some {} }) =
          ([] ++ [{ device_id := none,
                    usb_product_id := properties.ProductID,
                    serial := properties.SerialNumber,
                    location := properties.LocationID }], none) :=
  ⟨rfl, plist_decode_properties_present false 1 8 1 {} "" 1 { Properties := some {} } [] 0 rfl⟩

/-! ## Claim C10 -/

/-- C10 counterexample: the claim says every call to the plist send path
overwrites the supplied payload's `MessageType` in place. A call with the
legacy integer request `1` (`RESULT`, absent from the two-entry
integer-to-string dictionary) raises `KeyError` while evaluating the request
type, before the assignment runs: the returned payload is the original object
and its `MessageType` is still absent. -/
theorem plist_send_int_request_no_mutation :
    PlistProtocol.send_packet false (.int 1) 7 {} = ({}, .error .keyError)
    ∧ Payload.MessageType {} = none :=
  ⟨rfl, rfl⟩

/-- C10 (amended): for every call to the plist send path whose request has a
string form (a string request, or a legacy integer in the two-entry
dictionary), the caller-supplied payload object is mutated in place, its
`MessageType` overwritten with that string before serialization and every
other field left unchanged — whatever the call then returns; for any other
integer request the send raises `KeyError` before any mutation. -/
theorem plist_send_overwrites_message_type (connected : Bool) (tag : Nat)
    (p : Payload) (request : RequestTypeT) (mt : String)
    (h : PlistProtocol.__request_type request = .ok mt) :
    (PlistProtocol.send_packet connected request tag p).1 =
      { p with MessageType := some mt } := by
  unfold PlistProtocol.send_packet
  rw [h]
  cases hd : dumps (remove_none_asdict { p with MessageType := some mt }) <;>
    cases connected <;> simp [hd]

/-- C10 witness: the string request `"Listen"` on the default payload. -/
theorem plist_send_overwrites_message_type_witness :
    PlistProtocol.__request_type (.str "Listen") = .ok "Listen"
    ∧ (PlistProtocol.send_packet false (.str "Listen") 7 {}).1 =
        { ({} : Payload) with MessageType := some "Listen" } :=
  ⟨rfl, plist_send_overwrites_message_type false 7 {} (.str "Listen") "Listen" rfl⟩

end Usbmux
